import Mathlib

/-!
Shallow embedding of the adaptive content-budgeting pipeline of
`src/lib/fileUploadHelper.ts` (groove-chat), together with proofs about it.

Modelling conventions, used throughout:

* JavaScript strings are Lean `String`s; `s.length`, `s.substring`,
  `s.split`, `s.trim` and `s.includes` are modelled on `String.data`
  (the character list of the string).
* JavaScript numbers are modelled with exact arithmetic.  Every
  fractional expression in the source has the form
  `Math.floor(x * compressionRatio)` with `compressionRatio = B / L`, or
  `Math.floor(x * c)` for a decimal literal `c = p / q`; these are
  modelled as the Nat divisions `x * B / L` and `x * p / q`, which are
  their exact real values.  Tier guards `compressionRatio > c` are
  modelled by the cross-multiplied integer comparisons `q * B > p * L`.
* `for` loops that only append to the output string are modelled as the
  join of the loop body over the corresponding index range
  (`List.range' a k` is `[a, a+1, ..., a+k-1]`, matching
  `for (let i = a; i < a + k; i++)`).
* The per-format extraction primitives (pdfjs, mammoth, XLSX, file
  reading) are external collaborators; their outputs are the inputs of
  the embedded functions: the list of page texts for `extractPdfText`,
  the raw text for `extractDocxText` and `extractCsvText`, and the list
  of sheets (sheet name together with the lines of `sheet_to_csv`, i.e.
  `csvData.split('\n')`) for `extractExcelText`.
-/

namespace FileUploadHelper

/-- Models `const TARGET_TOKENS = 4000` (same constant in all four extractors). -/
def TARGET_TOKENS : Nat := 4000

/-- Models `const MAX_CHARS = TARGET_TOKENS * 4`. -/
def MAX_CHARS : Nat := TARGET_TOKENS * 4

/-- Concatenation of a list of strings in order (a sequence of `text += s`). -/
def strJoin : List String → String
  | [] => ""
  | s :: rest => s ++ strJoin rest

/-- Models `lines.join('\n')`: inverse of `csvData.split('\n')`, used to recover the
raw `csvData` of a sheet from its list of lines. -/
def joinNL : List String → String
  | [] => ""
  | [l] => l
  | l :: rest => l ++ "\n" ++ joinNL rest

/-- Decidable check that `pat` is a prefix of `l` (character lists). -/
def prefB : List Char → List Char → Bool
  | [], _ => true
  | _ :: _, [] => false
  | a :: as, b :: bs => a == b && prefB as bs

/-- Decidable substring check: JavaScript `l.includes(pat)` on character
lists (`pat` occurs contiguously inside `l`). -/
def containsB (pat : List Char) : List Char → Bool
  | [] => prefB pat []
  | c :: rest => prefB pat (c :: rest) || containsB pat rest

/-- JavaScript `s.includes(pat)`. -/
def includesStr (s pat : String) : Bool := containsB pat.data s.data

/-- The whitespace class used to model JavaScript `String.prototype.trim`
(the source only ever trims spaces, tabs, newlines and carriage returns). -/
def isJsWhitespace (c : Char) : Bool :=
  c = ' ' || c = '\t' || c = '\n' || c = '\r'

/-- JavaScript `line.trim()` on a character list: drop whitespace from both
ends. -/
def trimList (l : List Char) : List Char :=
  ((l.dropWhile isJsWhitespace).reverse.dropWhile isJsWhitespace).reverse

/-- JavaScript `s.trim()`. -/
def jsTrim (s : String) : String := String.mk (trimList s.data)

/-- JavaScript `s.split(c)` on a character list: splits at every occurrence
of `c`, keeping empty pieces (`"a,,b".split(',') = ["a","","b"]`). -/
def splitChar (c : Char) : List Char → List (List Char)
  | [] => [[]]
  | a :: rest =>
    match splitChar c rest with
    | [] => [[]]
    | h :: t => if a = c then [] :: h :: t else (a :: h) :: t

/-- JavaScript `s.substring(0, k)` (with `0 ≤ k ≤ s.length` at all call
sites of the source). -/
def jsSubstringTo (s : String) (k : Nat) : String := String.mk (s.data.take k)

/-- JavaScript `s.substring(k)` (with `0 ≤ k ≤ s.length` at all call sites
of the source). -/
def jsSubstringFrom (s : String) (k : Nat) : String := String.mk (s.data.drop k)

/-! ## `extractPdfText` -/

/-- One page's contribution to the PDF text:
`` `\n--- Page ${i} ---\n${pageText}\n` ``. -/
def pageBlock (i : Nat) (t : String) : String :=
  "\n--- Page " ++ toString i ++ " ---\n" ++ t ++ "\n"

/-- First pass of `extractPdfText`: `fullText`, accumulated over pages
`1..totalPages` (`pages.getD (i-1) ""` is `pageTexts[i - 1]`). -/
def pdfFullText (pages : List String) : String :=
  strJoin ((List.range' 1 pages.length).map fun i => pageBlock i (pages.getD (i - 1) ""))

/-- Body of the light-compression loop of `extractPdfText`: one iteration,
with the `continue`/marker logic for indices in `[skipStart, skipEnd)`. -/
def pdfLightStep (pages : List String) (skipStart skipEnd : Nat) (acc : String) (i : Nat) :
    String :=
  if skipStart ≤ i ∧ i < skipEnd then
    if i = skipStart then
      acc ++ ("\n... [Pages " ++ toString skipStart ++ " to " ++ toString (skipEnd - 1)
        ++ " omitted] ...\n")
    else acc
  else acc ++ pageBlock i (pages.getD (i - 1) "")

/-- Light compression of `extractPdfText` (`compressionRatio > 0.7`):
`skipStart = Math.floor(totalPages * 0.4)`,
`skipEnd = skipStart + (totalPages - pagesToKeep)`, and one pass over pages
`1..totalPages` skipping `[skipStart, skipEnd)`. -/
def pdfLight (pages : List String) (pagesToKeep : Nat) : String :=
  let totalPages := pages.length
  let skipStart := totalPages * 4 / 10
  let skipEnd := skipStart + (totalPages - pagesToKeep)
  (List.range' 1 totalPages).foldl (pdfLightStep pages skipStart skipEnd) ""

/-- Moderate compression of `extractPdfText` (`0.4 < compressionRatio ≤ 0.7`):
first `Math.floor(pagesToKeep*0.5)` pages, `Math.floor(pagesToKeep*0.2)`
pages from `Math.floor(totalPages/2)`, and the last
`pagesToKeep - keepFirst - keepMiddle` pages, with the prefix summary line. -/
def pdfModerate (pages : List String) (pagesToKeep : Nat) : String :=
  let totalPages := pages.length
  let keepFirst := pagesToKeep / 2
  let keepMiddle := pagesToKeep * 2 / 10
  let keepLast := pagesToKeep - keepFirst - keepMiddle
  let middleStart := totalPages / 2
  let lastStart := totalPages - keepLast + 1
  ("[PDF: " ++ toString totalPages ++ " pages, showing " ++ toString pagesToKeep
      ++ " pages]\n")
    ++ strJoin ((List.range' 1 keepFirst).map fun i => pageBlock i (pages.getD (i - 1) ""))
    ++ (if 0 < keepMiddle then
          ("\n... [Pages " ++ toString (keepFirst + 1) ++ " to " ++ toString (middleStart - 1)
            ++ " omitted] ...\n")
            ++ strJoin ((List.range' middleStart keepMiddle).map fun p =>
                pageBlock p (pages.getD (p - 1) ""))
        else "")
    ++ ("\n... [Pages " ++ toString (totalPages / 2 + keepMiddle) ++ " to "
        ++ toString (lastStart - 1) ++ " omitted] ...\n")
    ++ strJoin ((List.range' lastStart (totalPages + 1 - lastStart)).map fun i =>
        pageBlock i (pages.getD (i - 1) ""))

/-- Heavy compression of `extractPdfText` (`compressionRatio ≤ 0.4`): fixed
region sizes 3 / 2 / 3, middle region starting at `Math.floor(totalPages/2)`,
last region `totalPages - 3 + 1 .. totalPages`. -/
def pdfHeavy (pages : List String) : String :=
  let totalPages := pages.length
  let middleStart := totalPages / 2
  ("[PDF: " ++ toString totalPages ++ " pages, heavily sampled to fit limits]\n")
    ++ strJoin ((List.range' 1 3).map fun i => pageBlock i (pages.getD (i - 1) ""))
    ++ "\n... [Significant content omitted] ...\n"
    ++ strJoin ((List.range' middleStart 2).map fun p => pageBlock p (pages.getD (p - 1) ""))
    ++ "\n... [Significant content omitted] ...\n"
    ++ strJoin ((List.range' (totalPages - 2) 3).map fun i =>
        pageBlock i (pages.getD (i - 1) ""))

/-- Models `extractPdfText`, given the extracted page texts.  The tier guards
`compressionRatio > 0.7` and `compressionRatio > 0.4` (with
`compressionRatio = MAX_CHARS / fullText.length`) are the integer
comparisons `10 * MAX_CHARS > 7 * L` and `10 * MAX_CHARS > 4 * L`;
`pagesToKeep = Math.floor(totalPages * compressionRatio)` is
`totalPages * MAX_CHARS / L`. -/
def extractPdfText (pages : List String) : String :=
  let fullText := pdfFullText pages
  if fullText.length ≤ MAX_CHARS then fullText
  else
    let pagesToKeep := pages.length * MAX_CHARS / fullText.length
    if 10 * MAX_CHARS > 7 * fullText.length then pdfLight pages pagesToKeep
    else if 10 * MAX_CHARS > 4 * fullText.length then pdfModerate pages pagesToKeep
    else pdfHeavy pages

/-! ## `extractDocxText` -/

/-- Models `extractDocxText`, given the raw text extracted by mammoth.  In the light
tier, `Math.floor(text.length * compressionRatio)` is
`text.length * MAX_CHARS / text.length` (exactly `MAX_CHARS` for nonzero
length); the fixed slice sizes are `Math.floor(MAX_CHARS * 0.7)` etc. -/
def extractDocxText (text : String) : String :=
  if text.length ≤ MAX_CHARS then text
  else if 20 * MAX_CHARS > 17 * text.length then
    jsSubstringTo text (text.length * MAX_CHARS / text.length)
      ++ "\n\n... [End of document truncated] ..."
  else if 10 * MAX_CHARS > 6 * text.length then
    jsSubstringTo text (MAX_CHARS * 7 / 10)
      ++ "\n\n... [Middle section omitted] ...\n\n"
      ++ jsSubstringFrom text (text.length - MAX_CHARS * 3 / 10)
  else
    jsSubstringTo text (MAX_CHARS * 5 / 10)
      ++ "\n\n... [Significant middle content omitted to fit limits] ...\n\n"
      ++ jsSubstringFrom text (text.length - MAX_CHARS * 5 / 10)

/-! ## `extractExcelText` and `extractCsvText`

A sheet is modelled as its name together with
`lines = sheet_to_csv(worksheet).split('\n')`; the raw `csvData` is
recovered as `joinNL lines`.  The row-sampling body is textually identical
in `extractExcelText` (per sheet) and `extractCsvText`, so it is embedded
once as `sampleRowsBody`. -/

/-- One row-emitting loop `for (let i = start; i < start + count; i++)
{ text += lines[i] + '\n'; }`. -/
def rowsLoop (lines : List String) (start count : Nat) : String :=
  strJoin ((List.range' start count).map fun i => lines.getD i "" ++ "\n")

/-- Light tier row count: `Math.max(targetRows, Math.floor(dataRows * 0.85))`. -/
def lightRowsToKeep (dataRows targetRows : Nat) : Nat :=
  max targetRows (dataRows * 85 / 100)

/-- The tiered row-sampling body shared by `extractExcelText` (per sheet) and
`extractCsvText`: `dataRows = lines.length - 1`,
`targetRows = Math.floor(dataRows * compressionRatio)` with
`compressionRatio = B / L`.  The moderate-tier middle marker count
`middleStart - keepFirst - 1` is a JavaScript number that can be negative,
so it is computed in `Int`. -/
def sampleRowsBody (B L : Nat) (lines : List String) : String :=
  let dataRows := lines.length - 1
  let targetRows := dataRows * B / L
  if 20 * B > 17 * L then
    let rowsToKeep := lightRowsToKeep dataRows targetRows
    rowsLoop lines 1 rowsToKeep
      ++ (if rowsToKeep < dataRows then
            "... [" ++ toString (dataRows - rowsToKeep) ++ " rows omitted from end] ...\n"
          else "")
  else if 2 * B > L then
    let keepFirst := targetRows / 2
    let keepLast := targetRows * 3 / 10
    let keepMiddle := targetRows - keepFirst - keepLast
    let middleStart := dataRows / 2 - keepMiddle / 2
    rowsLoop lines 1 keepFirst
      ++ (if 0 < keepMiddle ∧ keepFirst + keepLast + 20 < dataRows then
            ("... [" ++ toString ((middleStart : Int) - keepFirst - 1) ++ " rows omitted] ...\n")
              ++ rowsLoop lines middleStart keepMiddle
          else "")
      ++ (if 0 < keepLast then
            let lastStart := dataRows - keepLast + 1
            (if keepFirst + keepMiddle < lastStart then
               "... [" ++ toString (lastStart - keepFirst - keepMiddle - 1)
                 ++ " rows omitted] ...\n"
             else "")
              ++ rowsLoop lines lastStart (dataRows + 1 - lastStart)
          else "")
  else
    let keepFirst := targetRows * 4 / 10
    let keepMiddle := targetRows * 2 / 10
    let keepLast := targetRows * 4 / 10
    let middleStart := dataRows / 2
    rowsLoop lines 1 keepFirst
      ++ "... [significant data omitted] ...\n"
      ++ (if 0 < keepMiddle then
            rowsLoop lines middleStart keepMiddle ++ "... [significant data omitted] ...\n"
          else "")
      ++ rowsLoop lines (dataRows - keepLast + 1) keepLast

/-- One sheet's contribution to the Excel first pass:
`` `Sheet: ${sheetName}\n${csvData}\n\n` ``. -/
def sheetFullPiece (sheet : String × List String) : String :=
  "Sheet: " ++ sheet.1 ++ "\n" ++ joinNL sheet.2 ++ "\n\n"

/-- The Excel first pass `fullText` over all sheets. -/
def excelFullText (wb : List (String × List String)) : String :=
  strJoin (wb.map sheetFullPiece)

/-- One sheet's contribution to the sampled Excel output: sheet label,
header row (`lines[0]`, emitted whenever at least one line exists), the
early `return` for sheets with no data rows, otherwise the sampled rows
followed by the per-sheet summary line reporting `dataRows` and
`targetRows`. -/
def excelSheetSample (B L : Nat) (sheet : String × List String) : String :=
  let name := sheet.1
  let lines := sheet.2
  let headerPart := if 0 < lines.length then lines.getD 0 "" ++ "\n" else ""
  if lines.length ≤ 1 then "Sheet: " ++ name ++ "\n" ++ headerPart ++ "\n"
  else
    let dataRows := lines.length - 1
    let targetRows := dataRows * B / L
    "Sheet: " ++ name ++ "\n" ++ headerPart ++ sampleRowsBody B L lines
      ++ ("\n[Total rows in sheet: " ++ toString dataRows ++ ", Rows included: "
          ++ toString targetRows ++ "]\n\n")

/-- Models `extractExcelText`, given the sheets (name and csv lines).  No final
truncation is applied after the per-sheet loop: the sampled concatenation is
returned as is. -/
def extractExcelText (wb : List (String × List String)) : String :=
  let fullText := excelFullText wb
  if fullText.length ≤ MAX_CHARS then fullText
  else strJoin (wb.map (excelSheetSample MAX_CHARS fullText.length))

/-- The line list of `extractCsvText`:
`text.split('\n').map(line => line.trim()).filter(line => line.length > 0)`. -/
def csvLines (text : String) : List String :=
  (((splitChar '\n' text.data).map trimList).filter fun l => 0 < l.length).map String.mk

/-- Models `extractCsvText`, given the raw file text. -/
def extractCsvText (text : String) : String :=
  let lines := csvLines text
  if text.length ≤ MAX_CHARS then text
  else
    let totalRows := lines.length - 1
    let targetRows := totalRows * MAX_CHARS / text.length
    let headerPart := if 0 < lines.length then lines.getD 0 "" ++ "\n" else ""
    if lines.length ≤ 1 then headerPart
    else
      headerPart ++ sampleRowsBody MAX_CHARS text.length lines
        ++ ("\n[Total rows in CSV: " ++ toString totalRows ++ ", Rows included: "
            ++ toString targetRows ++ "]\n")

/-! ## `createFileMessageContent` -/

/-- The part of `ProcessedDocument` used by `createFileMessageContent`.
`ptype` is the `type` field; an absent/empty extracted text is the empty
string (JavaScript falsy `processedDoc.text`). -/
structure ProcessedDocument where
  ptype : String
  filename : String
  text : String

/-- The `wasTruncated` detection of `createFileMessageContent`: four
substring searches, with `&&` binding tighter than `||`. -/
def wasTruncated (text : String) : Bool :=
  includesStr text "[Data truncated" || includesStr text "[Document truncated"
    || includesStr text "rows omitted"
    || (includesStr text "Pages" && includesStr text "omitted")

/-- The sampling-disclosure note inserted when `wasTruncated` holds. -/
def samplingNote : String :=
  "\nNote: Large document was intelligently sampled to fit within processing limits. Key sections from beginning, middle, and end are included.\n"

/-- Models JavaScript `s.toUpperCase()` (character-wise upper-casing). -/
def jsToUpperCase (s : String) : String := String.mk (s.data.map Char.toUpper)

/-- Models `createFileMessageContent`: returns `(content, isMultimodal)`. -/
def createFileMessageContent (userMessage : String) (d : ProcessedDocument) :
    String × Bool :=
  if d.ptype = "image" then
    ((if userMessage = "" then "What do you see in this image?" else userMessage), true)
  else
    let wt := wasTruncated d.text
    if wt = false ∧ d.text = "" then
      ((if userMessage = ""
        then "I've uploaded a document. What would you like to know about it?"
        else userMessage), false)
    else
      (jsTrim ("\nI've uploaded a " ++ jsToUpperCase d.ptype ++ " file (" ++ d.filename ++ ").\n"
        ++ (if wt then samplingNote else "")
        ++ "\n\nDocument content:\n" ++ d.text ++ "\n\n"
        ++ (if userMessage = "" then "Please analyze this document and provide insights."
            else "My question: " ++ userMessage)
        ++ "\n  "), false)

/-! ## Generic lemmas about the string model -/

theorem strLength_append (a b : String) : (a ++ b).length = a.length + b.length := by
  show (a ++ b).data.length = a.data.length + b.data.length
  rw [String.data_append, List.length_append]

theorem strJoin_append (l₁ l₂ : List String) :
    strJoin (l₁ ++ l₂) = strJoin l₁ ++ strJoin l₂ := by
  induction l₁ with
  | nil => simp [strJoin]
  | cons s rest ih => simp [strJoin, ih, String.append_assoc]

theorem strJoin_length (l : List String) :
    (strJoin l).length = (l.map String.length).sum := by
  induction l with
  | nil => rfl
  | cons s rest ih => simp [strJoin, strLength_append, ih]

theorem pageBlock_length (i : Nat) (t : String) :
    (pageBlock i t).length = 16 + ((toString i).length + t.length) := by
  have h1 : ("\n--- Page " : String).length = 10 := rfl
  have h2 : (" ---\n" : String).length = 5 := rfl
  have h3 : ("\n" : String).length = 1 := rfl
  simp only [pageBlock, strLength_append, h1, h2, h3]
  omega

/-! ## Tier-selection lemmas for `extractPdfText` -/

theorem extractPdfText_eq_full (pages : List String)
    (h : (pdfFullText pages).length ≤ MAX_CHARS) :
    extractPdfText pages = pdfFullText pages := by
  simp only [extractPdfText]
  rw [if_pos h]

theorem extractPdfText_eq_light (pages : List String)
    (h1 : MAX_CHARS < (pdfFullText pages).length)
    (h2 : 7 * (pdfFullText pages).length < 10 * MAX_CHARS) :
    extractPdfText pages =
      pdfLight pages (pages.length * MAX_CHARS / (pdfFullText pages).length) := by
  simp only [extractPdfText]
  rw [if_neg (by omega), if_pos h2]

theorem extractPdfText_eq_heavy (pages : List String)
    (h1 : MAX_CHARS < (pdfFullText pages).length)
    (h2 : 10 * MAX_CHARS ≤ 4 * (pdfFullText pages).length) :
    extractPdfText pages = pdfHeavy pages := by
  simp only [extractPdfText]
  rw [if_neg (by omega), if_neg (by omega), if_neg (by omega)]


/-! ## Structural form of the heavy tier -/

theorem pdfHeavy_eq (pages : List String) :
    pdfHeavy pages =
      "[PDF: " ++ toString pages.length ++ " pages, heavily sampled to fit limits]\n"
        ++ (pageBlock 1 (pages.getD 0 "")
            ++ (pageBlock 2 (pages.getD 1 "") ++ (pageBlock 3 (pages.getD 2 "") ++ "")))
        ++ "\n... [Significant content omitted] ...\n"
        ++ (pageBlock (pages.length / 2) (pages.getD (pages.length / 2 - 1) "")
            ++ (pageBlock (pages.length / 2 + 1) (pages.getD (pages.length / 2 + 1 - 1) "") ++ ""))
        ++ "\n... [Significant content omitted] ...\n"
        ++ (pageBlock (pages.length - 2) (pages.getD (pages.length - 2 - 1) "")
            ++ (pageBlock (pages.length - 2 + 1) (pages.getD (pages.length - 2 + 1 - 1) "")
                ++ (pageBlock (pages.length - 2 + 2) (pages.getD (pages.length - 2 + 2 - 1) "") ++ ""))) := rfl

/-- Helper: the heavy tier on a six-page document emits pages 1,2,3,3,4,4,5,6:
the fixed 3/2/3 regions overlap and are not clamped, so pages 3 and 4 are
each emitted twice. -/
theorem pdf_heavy_six (p1 p2 p3 p4 p5 p6 : String)
    (hL : 40000 ≤ (pdfFullText [p1, p2, p3, p4, p5, p6]).length) :
    extractPdfText [p1, p2, p3, p4, p5, p6] =
      "[PDF: 6 pages, heavily sampled to fit limits]\n"
        ++ pageBlock 1 p1 ++ pageBlock 2 p2 ++ pageBlock 3 p3
        ++ "\n... [Significant content omitted] ...\n"
        ++ pageBlock 3 p3 ++ pageBlock 4 p4
        ++ "\n... [Significant content omitted] ...\n"
        ++ pageBlock 4 p4 ++ pageBlock 5 p5 ++ pageBlock 6 p6 := by
  rw [extractPdfText_eq_heavy _ (by unfold MAX_CHARS TARGET_TOKENS; omega)
      (by unfold MAX_CHARS TARGET_TOKENS; omega)]
  rw [pdfHeavy_eq]
  norm_num
  simp only [String.append_assoc]
  rw [show toString (6 : Nat) = "6" from rfl]
  rw [show ∀ X : String, "[PDF: " ++ ("6" ++ (" pages, heavily sampled to fit limits]\n" ++ X))
      = "[PDF: 6 pages, heavily sampled to fit limits]\n" ++ X from
    fun X => by rw [← String.append_assoc, ← String.append_assoc]; rfl]

/-- Helper: the heavy tier on an eight-page document emits all eight pages
(regions 1–3, 4–5, 6–8 cover everything), so the whole input reappears in
the output. -/
theorem pdf_heavy_eight (p1 p2 p3 p4 p5 p6 p7 p8 : String)
    (hL : 40000 ≤ (pdfFullText [p1, p2, p3, p4, p5, p6, p7, p8]).length) :
    extractPdfText [p1, p2, p3, p4, p5, p6, p7, p8] =
      "[PDF: 8 pages, heavily sampled to fit limits]\n"
        ++ pageBlock 1 p1 ++ pageBlock 2 p2 ++ pageBlock 3 p3
        ++ "\n... [Significant content omitted] ...\n"
        ++ pageBlock 4 p4 ++ pageBlock 5 p5
        ++ "\n... [Significant content omitted] ...\n"
        ++ pageBlock 6 p6 ++ pageBlock 7 p7 ++ pageBlock 8 p8 := by
  rw [extractPdfText_eq_heavy _ (by unfold MAX_CHARS TARGET_TOKENS; omega)
      (by unfold MAX_CHARS TARGET_TOKENS; omega)]
  rw [pdfHeavy_eq]
  norm_num
  simp only [String.append_assoc]
  rw [show toString (8 : Nat) = "8" from rfl]
  rw [show ∀ X : String, "[PDF: " ++ ("8" ++ (" pages, heavily sampled to fit limits]\n" ++ X))
      = "[PDF: 8 pages, heavily sampled to fit limits]\n" ++ X from
    fun X => by rw [← String.append_assoc, ← String.append_assoc]; rfl]

/-! ## Claim C7 -/

/-- Claim C7 — heavy-tier paginated sampling (Scenario C): a 20-page document
whose full extraction has length at least 40000 (so its compression ratio
16000 / length is at most 0.4, e.g. 0.3) produces exactly pages 1–3, the two
middle pages 10 and 11 (starting at floor(20/2) = 10), and the last three
pages 18–20 — 8 pages in total — with exactly two omission markers
separating the three regions, after the heavy-sampling summary prefix. -/
theorem c7_heavy_twenty (p1 p2 p3 p4 p5 p6 p7 p8 p9 p10 p11 p12 p13 p14 p15 p16 p17 p18 p19 p20 : String)
    (hL : 40000 ≤ (pdfFullText [p1, p2, p3, p4, p5, p6, p7, p8, p9, p10, p11, p12, p13, p14, p15, p16, p17, p18, p19, p20]).length) :
    extractPdfText [p1, p2, p3, p4, p5, p6, p7, p8, p9, p10, p11, p12, p13, p14, p15, p16, p17, p18, p19, p20] =
      "[PDF: 20 pages, heavily sampled to fit limits]\n"
        ++ pageBlock 1 p1 ++ pageBlock 2 p2 ++ pageBlock 3 p3
        ++ "\n... [Significant content omitted] ...\n"
        ++ pageBlock 10 p10 ++ pageBlock 11 p11
        ++ "\n... [Significant content omitted] ...\n"
        ++ pageBlock 18 p18 ++ pageBlock 19 p19 ++ pageBlock 20 p20 := by
  rw [extractPdfText_eq_heavy _ (by unfold MAX_CHARS TARGET_TOKENS; omega)
      (by unfold MAX_CHARS TARGET_TOKENS; omega)]
  rw [pdfHeavy_eq]
  norm_num
  simp only [String.append_assoc]
  rw [show toString (20 : Nat) = "20" from rfl]
  rw [show ∀ X : String, "[PDF: " ++ ("20" ++ (" pages, heavily sampled to fit limits]\n" ++ X))
      = "[PDF: 20 pages, heavily sampled to fit limits]\n" ++ X from
    fun X => by rw [← String.append_assoc, ← String.append_assoc]; rfl]

/-- A 2500-character page ('a' repeated). -/
def pg2500 : String := String.mk (List.replicate 2500 'a')

/-- Twenty 2500-character pages: full extraction length 50351 ≥ 40000. -/
def pdfEx20 : List String := [pg2500, pg2500, pg2500, pg2500, pg2500, pg2500, pg2500, pg2500, pg2500, pg2500, pg2500, pg2500, pg2500, pg2500, pg2500, pg2500, pg2500, pg2500, pg2500, pg2500]

/-- Witness for C7: the hypothesis of `c7_heavy_twenty` holds at `pdfEx20`
(full text of length 50351, compression ratio about 0.32). -/
theorem c7_heavy_twenty_witness :
    40000 ≤ (pdfFullText pdfEx20).length ∧
    extractPdfText pdfEx20 =
      "[PDF: 20 pages, heavily sampled to fit limits]\n"
        ++ pageBlock 1 pg2500 ++ pageBlock 2 pg2500 ++ pageBlock 3 pg2500
        ++ "\n... [Significant content omitted] ...\n"
        ++ pageBlock 10 pg2500 ++ pageBlock 11 pg2500
        ++ "\n... [Significant content omitted] ...\n"
        ++ pageBlock 18 pg2500 ++ pageBlock 19 pg2500 ++ pageBlock 20 pg2500 := by
  have hpg : pg2500.length = 2500 := by
    show (List.replicate 2500 'a').length = 2500
    exact List.length_replicate 2500 'a'
  have hlen20 : pdfEx20.length = 20 := by simp [pdfEx20]
  have hbound : 40000 ≤ (pdfFullText pdfEx20).length := by
    simp only [pdfFullText, hlen20]
    rw [show List.range' 1 20 = [1, 2, 3, 4, 5, 6, 7, 8, 9, 10, 11, 12, 13, 14, 15, 16, 17, 18, 19, 20] from rfl]
    simp only [List.map_cons, List.map_nil]
    rw [strJoin_length]
    simp only [List.map_cons, List.map_nil, pageBlock_length]
    simp only [pdfEx20]
    norm_num [hpg]
    omega
  refine ⟨hbound, ?_⟩
  show extractPdfText [pg2500, pg2500, pg2500, pg2500, pg2500, pg2500, pg2500, pg2500, pg2500, pg2500, pg2500, pg2500, pg2500, pg2500, pg2500, pg2500, pg2500, pg2500, pg2500, pg2500] = _
  exact c7_heavy_twenty pg2500 pg2500 pg2500 pg2500 pg2500 pg2500 pg2500 pg2500 pg2500 pg2500 pg2500 pg2500 pg2500 pg2500 pg2500 pg2500 pg2500 pg2500 pg2500 pg2500 (by show 40000 ≤ (pdfFullText pdfEx20).length; exact hbound)


/-- Unfolding lemma: `(String.mk l).data = l`. -/
theorem data_mk (l : List Char) : (String.mk l).data = l := rfl

/-! ## Claim C5 -/

/-- A 7000-character page filled with one character. -/
def pgFill (c : Char) : String := String.mk (List.replicate 7000 c)

/-- Six 7000-character pages with pairwise distinct fill characters (none of
which occurs in any literal text emitted by `extractPdfText`). -/
def pdfEx6 : List String :=
  [pgFill 'G', pgFill 'H', pgFill 'J', pgFill 'K', pgFill 'L', pgFill 'M']

theorem pgFill_length (c : Char) : (pgFill c).length = 7000 := by
  show (List.replicate 7000 c).length = 7000
  exact List.length_replicate 7000 c

theorem pdfEx6_bound : 40000 ≤ (pdfFullText pdfEx6).length := by
  have hlen : pdfEx6.length = 6 := by simp [pdfEx6]
  simp only [pdfFullText, hlen]
  rw [show List.range' 1 6 = [1, 2, 3, 4, 5, 6] from rfl]
  simp only [List.map_cons, List.map_nil]
  rw [strJoin_length]
  simp only [List.map_cons, List.map_nil, pageBlock_length]
  simp only [pdfEx6]
  norm_num [pgFill_length]
  omega

/-- Claim C5, counterexample: on the six-page document `pdfEx6` (heavy tier),
the fill character of page 3 occurs 14000 = 2 * 7000 times in the output
while the fill character of page 1 occurs 7000 times: page 3 is emitted
twice (the fixed heavy-tier regions 1–3 and 3–4 overlap and are not
clamped), refuting "no page/row is emitted twice". -/
theorem c5_counterexample :
    (extractPdfText pdfEx6).data.count 'J' = 14000 ∧
    (extractPdfText pdfEx6).data.count 'G' = 7000 := by
  have h6 := pdf_heavy_six (pgFill 'G') (pgFill 'H') (pgFill 'J') (pgFill 'K')
    (pgFill 'L') (pgFill 'M') (by exact pdfEx6_bound)
  constructor
  · show (extractPdfText [pgFill 'G', pgFill 'H', pgFill 'J', pgFill 'K', pgFill 'L',
      pgFill 'M']).data.count 'J' = 14000
    rw [h6]
    simp only [pageBlock, pgFill, String.data_append, List.count_append, data_mk,
      List.count_replicate]
    decide
  · show (extractPdfText [pgFill 'G', pgFill 'H', pgFill 'J', pgFill 'K', pgFill 'L',
      pgFill 'M']).data.count 'G' = 7000
    rw [h6]
    simp only [pageBlock, pgFill, String.data_append, List.count_append, data_mk,
      List.count_replicate]
    decide

/-- Helper: the heavy tier on a four-page document emits pages
1,2,3,2,3,2,3,4: the middle region starts at `floor(4/2) = 2` and the last
region at `4 - 3 + 1 = 2`, so pages 2 and 3 are each emitted three times and
page 2 recurs after page 3 — the emitted page indices are not even
nondecreasing. -/
theorem pdf_heavy_four (q1 q2 q3 q4 : String)
    (hL : 40000 ≤ (pdfFullText [q1, q2, q3, q4]).length) :
    extractPdfText [q1, q2, q3, q4] =
      "[PDF: 4 pages, heavily sampled to fit limits]\n"
        ++ pageBlock 1 q1 ++ pageBlock 2 q2 ++ pageBlock 3 q3
        ++ "\n... [Significant content omitted] ...\n"
        ++ pageBlock 2 q2 ++ pageBlock 3 q3
        ++ "\n... [Significant content omitted] ...\n"
        ++ pageBlock 2 q2 ++ pageBlock 3 q3 ++ pageBlock 4 q4 := by
  rw [extractPdfText_eq_heavy _ (by unfold MAX_CHARS TARGET_TOKENS; omega)
      (by unfold MAX_CHARS TARGET_TOKENS; omega)]
  rw [pdfHeavy_eq]
  norm_num
  simp only [String.append_assoc]
  rw [show toString (4 : Nat) = "4" from rfl]
  rw [show ∀ X : String, "[PDF: " ++ ("4" ++ (" pages, heavily sampled to fit limits]\n" ++ X))
      = "[PDF: 4 pages, heavily sampled to fit limits]\n" ++ X from
    fun X => by rw [← String.append_assoc, ← String.append_assoc]; rfl]

/-- Claim C5, amended — no clamping of overlapping regions: the heavy tier
emits its fixed regions 1..3, floor(n/2)..floor(n/2)+1, and n-2..n verbatim
even when they overlap, so the subsequence property fails: on any six-page
document the emitted page sequence is 1,2,3,3,4,4,5,6 (pages 3 and 4 each
twice), and on any four-page document it is 1,2,3,2,3,2,3,4 (pages 2 and 3
each three times, page 2 recurring after page 3, so the emitted indices are
not even nondecreasing); in both cases with two omission markers. -/
theorem c5_heavy_overlap_no_clamping :
    (∀ p1 p2 p3 p4 p5 p6 : String,
      40000 ≤ (pdfFullText [p1, p2, p3, p4, p5, p6]).length →
      extractPdfText [p1, p2, p3, p4, p5, p6] =
        "[PDF: 6 pages, heavily sampled to fit limits]\n"
          ++ pageBlock 1 p1 ++ pageBlock 2 p2 ++ pageBlock 3 p3
          ++ "\n... [Significant content omitted] ...\n"
          ++ pageBlock 3 p3 ++ pageBlock 4 p4
          ++ "\n... [Significant content omitted] ...\n"
          ++ pageBlock 4 p4 ++ pageBlock 5 p5 ++ pageBlock 6 p6) ∧
    (∀ q1 q2 q3 q4 : String,
      40000 ≤ (pdfFullText [q1, q2, q3, q4]).length →
      extractPdfText [q1, q2, q3, q4] =
        "[PDF: 4 pages, heavily sampled to fit limits]\n"
          ++ pageBlock 1 q1 ++ pageBlock 2 q2 ++ pageBlock 3 q3
          ++ "\n... [Significant content omitted] ...\n"
          ++ pageBlock 2 q2 ++ pageBlock 3 q3
          ++ "\n... [Significant content omitted] ...\n"
          ++ pageBlock 2 q2 ++ pageBlock 3 q3 ++ pageBlock 4 q4) :=
  ⟨pdf_heavy_six, pdf_heavy_four⟩

/-- A 7000-character page ('a' repeated). -/
def pg7000 : String := String.mk (List.replicate 7000 'a')

/-- A 10040-character page ('a' repeated): four of them exceed 40000. -/
def pg10040 : String := String.mk (List.replicate 10040 'a')

/-- Witness for C5 (amended): six 7000-character pages (full text length
42102 ≥ 40000) and four 10040-character pages (full text length 40228 ≥
40000) satisfy the two hypotheses. -/
theorem c5_heavy_overlap_no_clamping_witness :
    (40000 ≤ (pdfFullText [pg7000, pg7000, pg7000, pg7000, pg7000, pg7000]).length ∧
      extractPdfText [pg7000, pg7000, pg7000, pg7000, pg7000, pg7000] =
        "[PDF: 6 pages, heavily sampled to fit limits]\n"
          ++ pageBlock 1 pg7000 ++ pageBlock 2 pg7000 ++ pageBlock 3 pg7000
          ++ "\n... [Significant content omitted] ...\n"
          ++ pageBlock 3 pg7000 ++ pageBlock 4 pg7000
          ++ "\n... [Significant content omitted] ...\n"
          ++ pageBlock 4 pg7000 ++ pageBlock 5 pg7000 ++ pageBlock 6 pg7000) ∧
    (40000 ≤ (pdfFullText [pg10040, pg10040, pg10040, pg10040]).length ∧
      extractPdfText [pg10040, pg10040, pg10040, pg10040] =
        "[PDF: 4 pages, heavily sampled to fit limits]\n"
          ++ pageBlock 1 pg10040 ++ pageBlock 2 pg10040 ++ pageBlock 3 pg10040
          ++ "\n... [Significant content omitted] ...\n"
          ++ pageBlock 2 pg10040 ++ pageBlock 3 pg10040
          ++ "\n... [Significant content omitted] ...\n"
          ++ pageBlock 2 pg10040 ++ pageBlock 3 pg10040 ++ pageBlock 4 pg10040) := by
  have hpg : pg7000.length = 7000 := by
    show (List.replicate 7000 'a').length = 7000
    exact List.length_replicate 7000 'a'
  have hpg4 : pg10040.length = 10040 := by
    show (List.replicate 10040 'a').length = 10040
    exact List.length_replicate 10040 'a'
  have hbound : 40000 ≤ (pdfFullText [pg7000, pg7000, pg7000, pg7000, pg7000,
      pg7000]).length := by
    simp only [pdfFullText, List.length_cons, List.length_nil]
    rw [show List.range' 1 (0 + 1 + 1 + 1 + 1 + 1 + 1) = [1, 2, 3, 4, 5, 6] from rfl]
    simp only [List.map_cons, List.map_nil]
    rw [strJoin_length]
    simp only [List.map_cons, List.map_nil, pageBlock_length]
    norm_num [hpg]
    omega
  have hbound4 : 40000 ≤ (pdfFullText [pg10040, pg10040, pg10040, pg10040]).length := by
    simp only [pdfFullText, List.length_cons, List.length_nil]
    rw [show List.range' 1 (0 + 1 + 1 + 1 + 1) = [1, 2, 3, 4] from rfl]
    simp only [List.map_cons, List.map_nil]
    rw [strJoin_length]
    simp only [List.map_cons, List.map_nil, pageBlock_length]
    norm_num [hpg4]
    omega
  exact ⟨⟨hbound, c5_heavy_overlap_no_clamping.1 pg7000 pg7000 pg7000 pg7000 pg7000
      pg7000 hbound⟩,
    ⟨hbound4, c5_heavy_overlap_no_clamping.2 pg10040 pg10040 pg10040 pg10040 hbound4⟩⟩

/-! ## Claim C1 -/

/-- A 6000-character page ('a' repeated). -/
def pg6000 : String := String.mk (List.replicate 6000 'a')

/-- Eight 6000-character pages: full extraction length 48136, compression
ratio 16000 / 48136 < 0.4 (heavy tier). -/
def pdfEx8 : List String :=
  [pg6000, pg6000, pg6000, pg6000, pg6000, pg6000, pg6000, pg6000]

theorem pg6000_length : pg6000.length = 6000 := by
  show (List.replicate 6000 'a').length = 6000
  exact List.length_replicate 6000 'a'

theorem pdfEx8_bound : 40000 ≤ (pdfFullText pdfEx8).length := by
  have hlen : pdfEx8.length = 8 := by simp [pdfEx8]
  simp only [pdfFullText, hlen]
  rw [show List.range' 1 8 = [1, 2, 3, 4, 5, 6, 7, 8] from rfl]
  simp only [List.map_cons, List.map_nil]
  rw [strJoin_length]
  simp only [List.map_cons, List.map_nil, pageBlock_length]
  simp only [pdfEx8]
  norm_num [pg6000_length]
  omega

/-- Claim C1, counterexample: on the eight-page document `pdfEx8` the heavy
tier emits all eight 6000-character pages verbatim, so the output length
exceeds 17000 > 16000 + 200, although the total marker/summary overhead in
the output is under 150 characters: the excess over MAX_CHARS is not bounded
by the fixed marker overhead. -/
theorem c1_counterexample : 17000 < (extractPdfText pdfEx8).length := by
  have h8 := pdf_heavy_eight pg6000 pg6000 pg6000 pg6000 pg6000 pg6000 pg6000 pg6000
    pdfEx8_bound
  show 17000 < (extractPdfText [pg6000, pg6000, pg6000, pg6000, pg6000, pg6000,
    pg6000, pg6000]).length
  rw [h8]
  simp only [strLength_append, pageBlock_length, pg6000_length]
  omega

/-- Claim C1, amended — the budget invariant fails for the paginated sampler:
`extractPdfText` emits retained pages verbatim, so for every bound `n` there
is an input (eight pages of `max 6000 n` characters) whose sampled output is
longer than `n`; the excess over `MAX_CHARS` grows with the per-page sizes
and is not bounded by any constant.  (The length bound of the claim holds
only for the flat-document sampler, see C10.) -/
theorem c1_pdf_output_unbounded :
    ∀ n : Nat, ∃ pages : List String,
      MAX_CHARS < (pdfFullText pages).length ∧ n < (extractPdfText pages).length := by
  intro n
  set q : String := String.mk (List.replicate (max 6000 n) 'a') with hq_def
  have hq : q.length = max 6000 n := by
    rw [hq_def]
    show (List.replicate (max 6000 n) 'a').length = max 6000 n
    exact List.length_replicate (max 6000 n) 'a'
  have hm1 : 6000 ≤ max 6000 n := Nat.le_max_left 6000 n
  have hm2 : n ≤ max 6000 n := Nat.le_max_right 6000 n
  refine ⟨[q, q, q, q, q, q, q, q], ?_, ?_⟩
  · have hbound : 40000 ≤ (pdfFullText [q, q, q, q, q, q, q, q]).length := by
      simp only [pdfFullText, List.length_cons, List.length_nil]
      rw [show List.range' 1 (0 + 1 + 1 + 1 + 1 + 1 + 1 + 1 + 1) = [1, 2, 3, 4, 5, 6, 7, 8]
        from rfl]
      simp only [List.map_cons, List.map_nil]
      rw [strJoin_length]
      simp only [List.map_cons, List.map_nil, pageBlock_length]
      norm_num [hq]
      omega
    unfold MAX_CHARS TARGET_TOKENS
    omega
  · have hbound : 40000 ≤ (pdfFullText [q, q, q, q, q, q, q, q]).length := by
      simp only [pdfFullText, List.length_cons, List.length_nil]
      rw [show List.range' 1 (0 + 1 + 1 + 1 + 1 + 1 + 1 + 1 + 1) = [1, 2, 3, 4, 5, 6, 7, 8]
        from rfl]
      simp only [List.map_cons, List.map_nil]
      rw [strJoin_length]
      simp only [List.map_cons, List.map_nil, pageBlock_length]
      norm_num [hq]
      omega
    rw [pdf_heavy_eight q q q q q q q q hbound]
    simp only [strLength_append, pageBlock_length, hq]
    omega



/-! ## Structural form of the light tier -/

theorem range'_split (a m p : Nat) :
    List.range' a (m + p) = List.range' a m ++ List.range' (a + m) p := by
  have h := List.range'_append a m p 1
  rw [one_mul] at h
  rw [Nat.add_comm p m] at h
  exact h.symm

theorem foldl_block_append (pages : List String) (s e : Nat) (l : List Nat) (acc : String)
    (h : ∀ i ∈ l, ¬(s ≤ i ∧ i < e)) :
    l.foldl (pdfLightStep pages s e) acc
      = acc ++ strJoin (l.map fun i => pageBlock i (pages.getD (i - 1) "")) := by
  induction l generalizing acc with
  | nil => simp [strJoin]
  | cons a t ih =>
    simp only [List.foldl_cons, List.map_cons, strJoin]
    rw [show pdfLightStep pages s e acc a = acc ++ pageBlock a (pages.getD (a - 1) "") from by
      simp only [pdfLightStep]
      rw [if_neg (h a (by simp))]]
    rw [ih _ (fun i hi => h i (by simp [hi]))]
    rw [String.append_assoc]

theorem foldl_skip_silent (pages : List String) (s e : Nat) (l : List Nat) (acc : String)
    (h : ∀ i ∈ l, ((s ≤ i ∧ i < e) ∧ i ≠ s)) :
    l.foldl (pdfLightStep pages s e) acc = acc := by
  induction l generalizing acc with
  | nil => rfl
  | cons a t ih =>
    simp only [List.foldl_cons]
    rw [show pdfLightStep pages s e acc a = acc from by
      simp only [pdfLightStep]
      rw [if_pos (h a (by simp)).1, if_neg (h a (by simp)).2]]
    exact ih _ (fun i hi => h i (by simp [hi]))

theorem foldl_skip_range (pages : List String) (s e : Nat) (hse : s < e) (acc : String) :
    (List.range' s (e - s)).foldl (pdfLightStep pages s e) acc
      = acc ++ ("\n... [Pages " ++ toString s ++ " to " ++ toString (e - 1)
          ++ " omitted] ...\n") := by
  rw [show e - s = (e - s - 1) + 1 from by omega]
  rw [show List.range' s (e - s - 1 + 1) = s :: List.range' (s + 1) (e - s - 1) from rfl]
  simp only [List.foldl_cons]
  rw [show pdfLightStep pages s e acc s
      = acc ++ ("\n... [Pages " ++ toString s ++ " to " ++ toString (e - 1)
          ++ " omitted] ...\n") from by
    simp only [pdfLightStep]
    rw [if_pos ⟨Nat.le_refl s, hse⟩]
    simp]
  apply foldl_skip_silent
  intro i hi
  rw [List.mem_range'_1] at hi
  constructor
  · constructor
    · omega
    · omega
  · omega

/-- Structural form of the light tier: with `s = skipStart`, `e = skipEnd`,
`1 ≤ s < e ≤ totalPages + 1`, the output is pages `1..s-1`, then the single
interior omission marker for pages `s..e-1`, then pages `e..totalPages`. -/
theorem pdfLight_eq (pages : List String) (k s e : Nat)
    (hs_def : s = pages.length * 4 / 10)
    (he_def : e = s + (pages.length - k))
    (h1 : 1 ≤ s) (h2 : s < e) (h3 : e ≤ pages.length + 1) :
    pdfLight pages k =
      strJoin ((List.range' 1 (s - 1)).map fun i => pageBlock i (pages.getD (i - 1) ""))
        ++ ("\n... [Pages " ++ toString s ++ " to " ++ toString (e - 1) ++ " omitted] ...\n")
        ++ strJoin ((List.range' e (pages.length + 1 - e)).map fun i =>
            pageBlock i (pages.getD (i - 1) "")) := by
  simp only [pdfLight]
  rw [← hs_def, ← he_def]
  have hsplit : List.range' 1 pages.length
      = List.range' 1 (s - 1) ++ List.range' s (e - s)
        ++ List.range' e (pages.length + 1 - e) := by
    conv_lhs => rw [show pages.length = (s - 1) + ((e - s) + (pages.length + 1 - e)) from by
      omega]
    rw [range'_split, range'_split]
    rw [show 1 + (s - 1) = s from by omega, show s + (e - s) = e from by omega]
    rw [List.append_assoc]
  rw [hsplit, List.foldl_append, List.foldl_append]
  rw [foldl_block_append pages s e _ _ (fun i hi => by
    rw [List.mem_range'_1] at hi
    omega)]
  rw [foldl_skip_range pages s e h2]
  rw [foldl_block_append pages s e _ _ (fun i hi => by
    rw [List.mem_range'_1] at hi
    omega)]
  simp only [String.empty_append, String.append_assoc]

/-! ## Claim C4 -/

/-- Claim C4, amended — light tier omits an interior run, not the tail: when
the light tier applies (`MAX_CHARS < L` and `7L < 10 * MAX_CHARS`), with
`pagesToKeep = totalPages * MAX_CHARS / L`,
`skipStart = floor(totalPages * 0.4)` and
`skipEnd = skipStart + (totalPages - pagesToKeep)` (assumed in range), the
output keeps pages `1..skipStart-1`, inserts ONE interior omission marker
naming pages `skipStart..skipEnd-1`, and keeps the tail pages
`skipEnd..totalPages`; no `max(ratio, 0.85)` floor is applied anywhere. -/
theorem c4_light_interior_omission (pages : List String) (k s e : Nat)
    (hk : k = pages.length * MAX_CHARS / (pdfFullText pages).length)
    (hs_def : s = pages.length * 4 / 10)
    (he_def : e = s + (pages.length - k))
    (hL1 : MAX_CHARS < (pdfFullText pages).length)
    (hL2 : 7 * (pdfFullText pages).length < 10 * MAX_CHARS)
    (h1 : 1 ≤ s) (h2 : s < e) (h3 : e ≤ pages.length + 1) :
    extractPdfText pages =
      strJoin ((List.range' 1 (s - 1)).map fun i => pageBlock i (pages.getD (i - 1) ""))
        ++ ("\n... [Pages " ++ toString s ++ " to " ++ toString (e - 1) ++ " omitted] ...\n")
        ++ strJoin ((List.range' e (pages.length + 1 - e)).map fun i =>
            pageBlock i (pages.getD (i - 1) "")) := by
  rw [extractPdfText_eq_light pages hL1 hL2, ← hk]
  exact pdfLight_eq pages k s e hs_def he_def h1 h2 h3

/-- A 2000-character page filled with one character. -/
def pg2000 (c : Char) : String := String.mk (List.replicate 2000 c)

theorem pg2000_length (c : Char) : (pg2000 c).length = 2000 := by
  show (List.replicate 2000 c).length = 2000
  exact List.length_replicate 2000 c

/-- Ten 2000-character pages with pairwise distinct fill characters, none of
which occurs in any literal emitted by `extractPdfText`.  Full extraction
length 20171, ratio 16000/20171 ≈ 0.79 (light tier), pagesToKeep = 7,
skipStart = 4, skipEnd = 7. -/
def pdfEx10 : List String :=
  [pg2000 'G', pg2000 'H', pg2000 'J', pg2000 'K', pg2000 'L', pg2000 'M', pg2000 'N',
    pg2000 'Q', pg2000 'R', pg2000 'T']

theorem pdfEx10_len : (pdfFullText pdfEx10).length = 20171 := by
  have hlen : pdfEx10.length = 10 := by simp [pdfEx10]
  simp only [pdfFullText, hlen]
  rw [show List.range' 1 10 = [1, 2, 3, 4, 5, 6, 7, 8, 9, 10] from rfl]
  simp only [List.map_cons, List.map_nil]
  rw [strJoin_length]
  simp only [List.map_cons, List.map_nil, pageBlock_length]
  simp only [pdfEx10]
  norm_num [pg2000_length]
  decide

/-- Evaluation of `extractPdfText` on `pdfEx10`: pages 1–3, one interior
marker for pages 4–6, pages 7–10. -/
theorem pdfEx10_eval : extractPdfText pdfEx10 =
    pageBlock 1 (pg2000 'G')
      ++ (pageBlock 2 (pg2000 'H') ++ (pageBlock 3 (pg2000 'J') ++ ""))
      ++ ("\n... [Pages " ++ toString 4 ++ " to " ++ toString 6 ++ " omitted] ...\n")
      ++ (pageBlock 7 (pg2000 'N') ++ (pageBlock 8 (pg2000 'Q') ++ (pageBlock 9 (pg2000 'R')
          ++ (pageBlock 10 (pg2000 'T') ++ "")))) := by
  rw [extractPdfText_eq_light pdfEx10
    (by rw [pdfEx10_len]; unfold MAX_CHARS TARGET_TOKENS; norm_num)
    (by rw [pdfEx10_len]; unfold MAX_CHARS TARGET_TOKENS; norm_num)]
  rw [show pdfEx10.length * MAX_CHARS / (pdfFullText pdfEx10).length = 7 from by
    rw [pdfEx10_len]
    unfold MAX_CHARS TARGET_TOKENS
    norm_num [pdfEx10]]
  rw [pdfLight_eq pdfEx10 7 4 7 (by norm_num [pdfEx10]) (by norm_num [pdfEx10])
    (by norm_num) (by norm_num) (by norm_num [pdfEx10])]
  rw [show (4 : Nat) - 1 = 3 from rfl, show (7 : Nat) - 1 = 6 from rfl]
  rw [show pdfEx10.length + 1 - 7 = 4 from by norm_num [pdfEx10]]
  rw [show List.range' 1 3 = [1, 2, 3] from rfl, show List.range' 7 4 = [7, 8, 9, 10] from rfl]
  simp only [List.map_cons, List.map_nil, strJoin]
  norm_num [pdfEx10]

/-- Claim C4, counterexample: on `pdfEx10` (ten 2000-character pages, light
tier, ratio ≈ 0.79) the tail page 10 (fill 'T') IS present in the output,
the interior page 5 (fill 'L') is NOT, and exactly one omission marker (the
only '[' in the output) names the interior pages 4–6: the omitted region is
interior, not the tail, refuting "keep a prefix ... the omitted region is
the tail"; also no `max(ratio, 0.85)` floor is applied (7 pages are kept,
not 8 = floor(10 * 0.85)). -/
theorem c4_counterexample :
    (extractPdfText pdfEx10).data.count 'T' = 2000 ∧
    (extractPdfText pdfEx10).data.count 'L' = 0 ∧
    (extractPdfText pdfEx10).data.count '[' = 1 := by
  refine ⟨?_, ?_, ?_⟩ <;>
  · rw [pdfEx10_eval]
    simp only [pageBlock, pg2000, String.data_append, List.count_append, data_mk,
      List.count_replicate]
    decide

/-- Witness for C4 (amended): at `pdfEx10` the light tier applies with
`pagesToKeep = 7`, `skipStart = 4`, `skipEnd = 7`, and the theorem's
conclusion holds there. -/
theorem c4_light_interior_omission_witness :
    MAX_CHARS < (pdfFullText pdfEx10).length ∧
    7 * (pdfFullText pdfEx10).length < 10 * MAX_CHARS ∧
    extractPdfText pdfEx10 =
      strJoin ((List.range' 1 (4 - 1)).map fun i => pageBlock i (pdfEx10.getD (i - 1) ""))
        ++ ("\n... [Pages " ++ toString 4 ++ " to " ++ toString (7 - 1) ++ " omitted] ...\n")
        ++ strJoin ((List.range' 7 (pdfEx10.length + 1 - 7)).map fun i =>
            pageBlock i (pdfEx10.getD (i - 1) "")) := by
  refine ⟨?_, ?_, ?_⟩
  · rw [pdfEx10_len]
    unfold MAX_CHARS TARGET_TOKENS
    norm_num
  · rw [pdfEx10_len]
    unfold MAX_CHARS TARGET_TOKENS
    norm_num
  · exact c4_light_interior_omission pdfEx10 7 4 7
      (by rw [pdfEx10_len]; unfold MAX_CHARS TARGET_TOKENS; norm_num [pdfEx10])
      (by norm_num [pdfEx10]) (by norm_num [pdfEx10])
      (by rw [pdfEx10_len]; unfold MAX_CHARS TARGET_TOKENS; norm_num)
      (by rw [pdfEx10_len]; unfold MAX_CHARS TARGET_TOKENS; norm_num)
      (by norm_num) (by norm_num) (by norm_num [pdfEx10])



/-! ## Claim C10 -/

theorem jsSubstringTo_length (s : String) (k : Nat) :
    (jsSubstringTo s k).length = min k s.length := by
  show (s.data.take k).length = min k s.data.length
  exact List.length_take k s.data

theorem jsSubstringFrom_length (s : String) (k : Nat) :
    (jsSubstringFrom s k).length = s.length - k := by
  show (s.data.drop k).length = s.data.length - k
  exact List.length_drop k s.data

/-- Claim C10 — the flat-document sampler output is always bounded: for every
input text, `extractDocxText` returns at most `MAX_CHARS + 62` characters
(62 is the length of the longest marker, the heavy-tier one): the full path
returns at most 16000, the light tier keeps
`floor(len * ratio) = 16000` characters plus a 37-character marker, the
moderate tier keeps `11200 + 4800` characters plus a 36-character marker,
and the heavy tier keeps `8000 + 8000` characters plus the 62-character
marker. -/
theorem c10_docx_bounded (t : String) :
    (extractDocxText t).length ≤ MAX_CHARS + 62 := by
  simp only [extractDocxText, MAX_CHARS, TARGET_TOKENS]
  norm_num
  by_cases h1 : t.length ≤ 16000
  · rw [if_pos h1]
    omega
  · rw [if_neg h1]
    by_cases h2 : 17 * t.length < 320000
    · rw [if_pos h2]
      rw [strLength_append, jsSubstringTo_length]
      rw [show t.length * 16000 / t.length = 16000 from by
        rw [Nat.mul_comm]
        exact Nat.mul_div_cancel _ (by omega)]
      rw [Nat.min_eq_left (by omega)]
      rw [show ("\n\n... [End of document truncated] ..." : String).length = 37 from rfl]
      omega
    · rw [if_neg h2]
      by_cases h3 : 6 * t.length < 160000
      · rw [if_pos h3]
        rw [strLength_append, strLength_append, jsSubstringTo_length, jsSubstringFrom_length]
        rw [show ("\n\n... [Middle section omitted] ...\n\n" : String).length = 36 from rfl]
        omega
      · rw [if_neg h3]
        rw [strLength_append, strLength_append, jsSubstringTo_length, jsSubstringFrom_length]
        rw [show ("\n\n... [Significant middle content omitted to fit limits] ...\n\n" :
          String).length = 62 from rfl]
        omega

/-! ## Claim C2 -/

/-- A short delimited-text input that happens to contain the phrase
"rows omitted" in its own data. -/
def csvShort : String := "id,note\n1,some rows omitted here\n"

/-- Claim C2, counterexample: `csvShort` fits the budget and is returned
unchanged by the sampler, yet the downstream `wasTruncated` flag is `true`,
because the detection is a substring search and the data itself contains
"rows omitted"; so "the downstream wasTruncated flag is false" fails for an
in-budget input. -/
theorem c2_counterexample :
    csvShort.length ≤ MAX_CHARS ∧
    extractCsvText csvShort = csvShort ∧
    wasTruncated csvShort = true := by
  refine ⟨by decide, ?_, by decide⟩
  · simp only [extractCsvText]
    rw [if_pos (by decide)]

/-- Claim C2, amended — full-inclusion no-op: each extractor returns the full
extraction unchanged whenever it fits the budget (no markers, no summary
line are added); and `wasTruncated` is false PROVIDED the text does not
itself contain any of the four detection patterns. -/
theorem c2_full_inclusion :
    (∀ pages : List String, (pdfFullText pages).length ≤ MAX_CHARS →
      extractPdfText pages = pdfFullText pages) ∧
    (∀ t : String, t.length ≤ MAX_CHARS → extractDocxText t = t) ∧
    (∀ wb : List (String × List String), (excelFullText wb).length ≤ MAX_CHARS →
      extractExcelText wb = excelFullText wb) ∧
    (∀ t : String, t.length ≤ MAX_CHARS → extractCsvText t = t) ∧
    (∀ t : String, includesStr t "[Data truncated" = false →
      includesStr t "[Document truncated" = false →
      includesStr t "rows omitted" = false →
      (includesStr t "Pages" = false ∨ includesStr t "omitted" = false) →
      wasTruncated t = false) := by
  refine ⟨?_, ?_, ?_, ?_, ?_⟩
  · exact fun pages h => extractPdfText_eq_full pages h
  · intro t h
    simp only [extractDocxText]
    rw [if_pos h]
  · intro wb h
    simp only [extractExcelText]
    rw [if_pos h]
  · intro t h
    simp only [extractCsvText]
    rw [if_pos h]
  · intro t h1 h2 h3 h4
    simp only [wasTruncated, h1, h2, h3]
    rcases h4 with h | h <;> simp [h]

/-- Witness for C2 (amended): concrete in-budget inputs for all four
extractors, and a marker-free text with `wasTruncated = false`. -/
theorem c2_full_inclusion_witness :
    extractPdfText ["hello"] = pdfFullText ["hello"] ∧
    extractDocxText "short document" = "short document" ∧
    extractExcelText [("S", ["h", "1,2"])] = excelFullText [("S", ["h", "1,2"])] ∧
    extractCsvText "a,b\n1,2" = "a,b\n1,2" ∧
    wasTruncated "plain text" = false :=
  ⟨c2_full_inclusion.1 ["hello"] (by decide),
    c2_full_inclusion.2.1 "short document" (by decide),
    c2_full_inclusion.2.2.1 [("S", ["h", "1,2"])] (by decide),
    c2_full_inclusion.2.2.2.1 "a,b\n1,2" (by decide),
    c2_full_inclusion.2.2.2.2 "plain text" (by decide) (by decide) (by decide)
      (Or.inl (by decide))⟩



/-! ## Substring lemmas for `containsB` -/

theorem containsB_append_right (pat l₁ l₂ : List Char)
    (h : containsB pat l₂ = true) : containsB pat (l₁ ++ l₂) = true := by
  induction l₁ with
  | nil => exact h
  | cons a t ih =>
    show (prefB pat (a :: (t ++ l₂)) || containsB pat (t ++ l₂)) = true
    rw [ih]
    exact Bool.or_true _

theorem containsB_false_append (c : Char) (cs l₁ l₂ : List Char)
    (hhead : ∀ x ∈ l₁, x ≠ c)
    (h2 : containsB (c :: cs) l₂ = false) :
    containsB (c :: cs) (l₁ ++ l₂) = false := by
  induction l₁ with
  | nil => exact h2
  | cons a t ih =>
    show (prefB (c :: cs) (a :: (t ++ l₂)) || containsB (c :: cs) (t ++ l₂)) = false
    rw [ih (fun x hx => hhead x (by simp [hx]))]
    have ha : (c == a) = false := by
      have := hhead a (by simp)
      simp [beq_iff_eq]
      exact fun hc => this hc.symm
    show ((c == a) && prefB cs (t ++ l₂) || false) = false
    rw [ha]
    rfl

/-! ## Claim C8 -/

/-- An 18000-character flat document ('a' repeated): light docx tier. -/
def docxBig : String := String.mk (List.replicate 18000 'a')

/-- The 16000-character prefix kept by the light docx tier on `docxBig`. -/
def docxKeep : String := String.mk (List.replicate 16000 'a')

theorem docxKeep_data : docxKeep.data = List.replicate 16000 'a' := rfl

theorem docxBig_len : docxBig.length = 18000 := by
  show (List.replicate 18000 'a').length = 18000
  exact List.length_replicate 18000 'a'

/-- Evaluation of the light docx tier on any 18000-character text. -/
theorem docx_light_18000 (t : String) (h : t.length = 18000) :
    extractDocxText t = jsSubstringTo t 16000 ++ "\n\n... [End of document truncated] ..." := by
  simp only [extractDocxText, MAX_CHARS, TARGET_TOKENS]
  rw [if_neg (by omega), if_pos (by omega)]
  rw [show t.length * (4000 * 4) / t.length = 16000 from by
    rw [Nat.mul_comm]
    exact Nat.mul_div_cancel _ (by omega)]

/-- Evaluation of the light docx tier on `docxBig`. -/
theorem docxBig_eval : extractDocxText docxBig
    = docxKeep ++ "\n\n... [End of document truncated] ..." := by
  rw [docx_light_18000 docxBig docxBig_len]
  rw [show jsSubstringTo docxBig 16000 = docxKeep from by
    show String.mk ((List.replicate 18000 'a').take 16000) = _
    rw [List.take_replicate]
    rfl]

/-- Claim C8, counterexample: the light docx tier appends the marker
"... [End of document truncated] ..." (so the output does contain a
truncation marker — the substring "truncated" — produced by a sampler tier),
yet `wasTruncated` is `false` on this output: none of the four searched
patterns ('[Data truncated', '[Document truncated', 'rows omitted',
'Pages'+'omitted') matches the flat-document markers.  Detection is NOT
exact over all tiers of all shapes. -/
theorem c8_counterexample :
    includesStr (extractDocxText docxBig) "truncated" = true ∧
    wasTruncated (extractDocxText docxBig) = false := by
  rw [docxBig_eval]
  have hdata : (docxKeep
      ++ "\n\n... [End of document truncated] ...").data
      = List.replicate 16000 'a' ++ ("\n\n... [End of document truncated] ..." : String).data := by
    rw [String.data_append, docxKeep_data]
  have hmem : ∀ x ∈ List.replicate 16000 'a', x = 'a' := by
    intro x hx
    exact List.eq_of_mem_replicate hx
  constructor
  · show containsB ("truncated" : String).data _ = true
    rw [hdata]
    exact containsB_append_right _ _ _ (by decide)
  · show (includesStr _ "[Data truncated" || includesStr _ "[Document truncated"
      || includesStr _ "rows omitted"
      || (includesStr _ "Pages" && includesStr _ "omitted")) = false
    have h1 : includesStr (docxKeep
        ++ "\n\n... [End of document truncated] ...") "[Data truncated" = false := by
      show containsB ('[' :: ("Data truncated" : String).data) _ = false
      rw [hdata]
      exact containsB_false_append _ _ _ _
        (fun x hx => by rw [hmem x hx]; decide) (by decide)
    have h2 : includesStr (docxKeep
        ++ "\n\n... [End of document truncated] ...") "[Document truncated" = false := by
      show containsB ('[' :: ("Document truncated" : String).data) _ = false
      rw [hdata]
      exact containsB_false_append _ _ _ _
        (fun x hx => by rw [hmem x hx]; decide) (by decide)
    have h3 : includesStr (docxKeep
        ++ "\n\n... [End of document truncated] ...") "rows omitted" = false := by
      show containsB ('r' :: ("ows omitted" : String).data) _ = false
      rw [hdata]
      exact containsB_false_append _ _ _ _
        (fun x hx => by rw [hmem x hx]; decide) (by decide)
    have h4 : includesStr (docxKeep
        ++ "\n\n... [End of document truncated] ...") "Pages" = false := by
      show containsB ('P' :: ("ages" : String).data) _ = false
      rw [hdata]
      exact containsB_false_append _ _ _ _
        (fun x hx => by rw [hmem x hx]; decide) (by decide)
    rw [h1, h2, h3, h4]
    rfl

theorem dropWhile_append_of_mem {p : Char → Bool} (l₁ l₂ : List Char)
    (h : ∃ x ∈ l₁, p x = false) :
    List.dropWhile p (l₁ ++ l₂) = List.dropWhile p l₁ ++ l₂ := by
  induction l₁ with
  | nil =>
    obtain ⟨x, hx, _⟩ := h
    exact absurd hx (List.not_mem_nil x)
  | cons a t ih =>
    by_cases hpa : p a = true
    · have ht : ∃ x ∈ t, p x = false := by
        obtain ⟨x, hx, hpx⟩ := h
        rcases List.mem_cons.mp hx with rfl | hxt
        · rw [hpa] at hpx
          exact absurd hpx (by simp)
        · exact ⟨x, hxt, hpx⟩
      show List.dropWhile p (a :: (t ++ l₂)) = _
      rw [List.dropWhile_cons_of_pos hpa, List.dropWhile_cons_of_pos hpa]
      exact ih ht
    · have hpa' : p a = false := by
        cases hq : p a
        · rfl
        · exact absurd hq hpa
      show List.dropWhile p (a :: (t ++ l₂)) = _
      rw [List.dropWhile_cons_of_neg (by rw [hpa']; simp),
        List.dropWhile_cons_of_neg (by rw [hpa']; simp)]
      rfl

/-- Trimming keeps any interior segment flanked by non-whitespace on both
sides: if `l = l₁ ++ (d ++ l₂)` with a non-whitespace character in `l₁` and
in `l₂`, then `d` still occurs contiguously in `trimList l`. -/
theorem trimList_keeps_middle (l l₁ d l₂ : List Char)
    (hl : l = l₁ ++ (d ++ l₂))
    (h₁ : ∃ x ∈ l₁, isJsWhitespace x = false)
    (h₂ : ∃ x ∈ l₂, isJsWhitespace x = false) :
    ∃ u v, trimList l = u ++ (d ++ v) := by
  subst hl
  unfold trimList
  rw [dropWhile_append_of_mem _ _ h₁]
  set u₁ := List.dropWhile isJsWhitespace l₁ with hu₁
  rw [show u₁ ++ (d ++ l₂) = (u₁ ++ d) ++ l₂ from by rw [List.append_assoc]]
  rw [List.reverse_append]
  rw [dropWhile_append_of_mem _ _ (by
    obtain ⟨x, hx, hpx⟩ := h₂
    exact ⟨x, List.mem_reverse.mpr hx, hpx⟩)]
  refine ⟨u₁, (List.dropWhile isJsWhitespace l₂.reverse).reverse, ?_⟩
  rw [List.reverse_append, List.reverse_reverse, List.append_assoc]

/-- Claim C8, amended — wasTruncated is exactly the four-pattern substring
search ('[Data truncated', '[Document truncated', 'rows omitted', or both
'Pages' and 'omitted'), which detects the tabular row markers and the
paginated page-range markers but NOT the flat-document markers nor the
heavy-tier paginated markers (see the counterexample); whenever the flag is
true, the fixed sampling-disclosure sentence occurs in the composed
message. -/
theorem c8_detection_and_disclosure :
    (∀ t : String, wasTruncated t =
      (includesStr t "[Data truncated" || includesStr t "[Document truncated"
        || includesStr t "rows omitted"
        || (includesStr t "Pages" && includesStr t "omitted"))) ∧
    (∀ (msg : String) (d : ProcessedDocument), d.ptype ≠ "image" →
      wasTruncated d.text = true →
      ∃ u v, (createFileMessageContent msg d).1.data = u ++ (samplingNote.data ++ v)) := by
  constructor
  · intro t
    rfl
  · intro msg d himg hwt
    simp only [createFileMessageContent]
    rw [if_neg himg, hwt]
    rw [if_neg (by simp)]
    rw [if_pos rfl]
    simp only [jsTrim, data_mk]
    apply trimList_keeps_middle _
      (("\nI've uploaded a " ++ jsToUpperCase d.ptype ++ " file (" ++ d.filename ++ ").\n").data)
      samplingNote.data
      (("\n\nDocument content:\n" ++ d.text ++ "\n\n"
        ++ (if msg = "" then "Please analyze this document and provide insights."
          else "My question: " ++ msg) ++ "\n  ").data)
    · simp [String.data_append, List.append_assoc]
    · refine ⟨'I', ?_, by decide⟩
      simp only [String.data_append]
      exact List.mem_append.mpr (Or.inl (List.mem_append.mpr (Or.inl
        (List.mem_append.mpr (Or.inl (List.mem_append.mpr (Or.inl (by decide))))))))
    · refine ⟨'D', ?_, by decide⟩
      simp only [String.data_append]
      exact List.mem_append.mpr (Or.inl (List.mem_append.mpr (Or.inl
        (List.mem_append.mpr (Or.inl (List.mem_append.mpr (Or.inl (by decide))))))))

/-- A processed document whose extracted text contains a detected marker. -/
def truncatedDoc : ProcessedDocument :=
  { ptype := "csv", filename := "data.csv", text := "x\nrows omitted\n" }

/-- Witness for C8 (amended): at `truncatedDoc` the flag is true and the
disclosure sentence occurs in the composed message. -/
theorem c8_detection_and_disclosure_witness :
    wasTruncated truncatedDoc.text = true ∧
    ∃ u v, (createFileMessageContent "hi" truncatedDoc).1.data
      = u ++ (samplingNote.data ++ v) :=
  ⟨by decide,
    c8_detection_and_disclosure.2 "hi" truncatedDoc (by decide) (by decide)⟩



/-! ## Claim C3 -/

theorem strJoin_replicate_length (k : Nat) (s : String) :
    (strJoin (List.replicate k s)).length = k * s.length := by
  induction k with
  | zero => simp [strJoin]
  | succ m ih =>
    rw [List.replicate_succ]
    show (s ++ strJoin (List.replicate m s)).length = (m + 1) * s.length
    rw [strLength_append, ih]
    ring

/-- The sampled output of the sheet `("s", ["h","r"])` in the heavy tier
(`targetRows = 0`): label, header, one generic marker, and the summary
line — about 91 characters, although the sheet's full text is 14. -/
def tinySheetOut : String :=
  "Sheet: s\nh\n... [significant data omitted] ...\n\n[Total rows in sheet: 1, Rows included: 0]\n\n"

theorem tiny_sheet_eval (L : Nat) (hL : 32000 ≤ L) :
    excelSheetSample MAX_CHARS L ("s", ["h", "r"]) = tinySheetOut := by
  simp only [excelSheetSample, sampleRowsBody, MAX_CHARS, TARGET_TOKENS]
  norm_num
  rw [if_neg (by omega), if_neg (by omega)]
  rw [show 16000 / L = 0 from Nat.div_eq_of_lt (by omega)]
  decide

theorem excel_tiny_full_len (k : Nat) :
    (excelFullText (List.replicate k ("s", ["h", "r"]))).length = k * 14 := by
  have hfull : excelFullText (List.replicate k ("s", ["h", "r"]))
      = strJoin (List.replicate k ("Sheet: s\nh\nr\n\n" : String)) := by
    simp only [excelFullText, List.map_replicate]
    rw [show sheetFullPiece ("s", ["h", "r"]) = "Sheet: s\nh\nr\n\n" from rfl]
  rw [hfull, strJoin_replicate_length]
  rw [show ("Sheet: s\nh\nr\n\n" : String).length = 14 from rfl]

theorem excel_replicate_eval (k : Nat) (h : 2286 ≤ k) :
    extractExcelText (List.replicate k ("s", ["h", "r"]))
      = strJoin (List.replicate k tinySheetOut) := by
  simp only [extractExcelText]
  rw [if_neg (by rw [excel_tiny_full_len]; unfold MAX_CHARS TARGET_TOKENS; omega)]
  rw [List.map_replicate]
  rw [tiny_sheet_eval _ (by rw [excel_tiny_full_len]; omega)]

/-- Claim C3, counterexample: a workbook of 2300 copies of the two-line sheet
`("s", ["h","r"])` has full text of length 32200 (> 16000, heavy tier), and
`extractExcelText` returns a string of length 2300 * 91 = 209300 — far above
the budget: no safety-net truncation exists in `extractExcelText`, so the
returned string can exceed the budget. -/
theorem c3_counterexample :
    16000 < (extractExcelText (List.replicate 2300 ("s", ["h", "r"]))).length := by
  rw [excel_replicate_eval 2300 (by norm_num), strJoin_replicate_length]
  rw [show tinySheetOut.length = 91 from rfl]
  norm_num

/-- Claim C3, amended — there is no safety-net backstop: `extractExcelText`
returns the per-sheet concatenation without any final truncation, and its
output length is unbounded: for every `n` there is a workbook (many tiny
sheets) whose full text exceeds the budget and whose sampled output exceeds
`n` — each sheet contributes a fixed-size label/marker/summary block that
survives sampling. -/
theorem c3_excel_output_unbounded :
    ∀ n : Nat, ∃ wb : List (String × List String),
      MAX_CHARS < (excelFullText wb).length ∧ n < (extractExcelText wb).length := by
  intro n
  refine ⟨List.replicate (2286 + n) ("s", ["h", "r"]), ?_, ?_⟩
  · rw [excel_tiny_full_len]
    unfold MAX_CHARS TARGET_TOKENS
    omega
  · rw [excel_replicate_eval (2286 + n) (by omega), strJoin_replicate_length]
    rw [show tinySheetOut.length = 91 from rfl]
    omega



/-! ## Claim C6 -/

theorem strJoin_mem_decomp (l : List String) (s : String) (h : s ∈ l) :
    ∃ u v, strJoin l = u ++ (s ++ v) := by
  induction l with
  | nil => exact absurd h (List.not_mem_nil s)
  | cons a t ih =>
    rcases List.mem_cons.mp h with rfl | ht
    · exact ⟨"", strJoin t, by rw [String.empty_append]; rfl⟩
    · obtain ⟨u, v, huv⟩ := ih ht
      exact ⟨a ++ u, v, by rw [show strJoin (a :: t) = a ++ strJoin t from rfl, huv,
        String.append_assoc]⟩

/-- In the sampled path, each sheet's output starts with the sheet label
followed by the header row. -/
theorem excelSheetSample_header (B L : Nat) (name : String) (lines : List String)
    (h : lines ≠ []) :
    ∃ rest, excelSheetSample B L (name, lines)
      = ("Sheet: " ++ name ++ "\n" ++ lines.getD 0 "" ++ "\n") ++ rest := by
  have h0 : 0 < lines.length := List.length_pos.mpr h
  simp only [excelSheetSample]
  rw [if_pos h0]
  by_cases h1 : lines.length ≤ 1
  · rw [if_pos h1]
    exact ⟨"\n", by simp [String.append_assoc]⟩
  · rw [if_neg h1]
    refine ⟨sampleRowsBody B L lines
      ++ ("\n[Total rows in sheet: " ++ toString (lines.length - 1) ++ ", Rows included: "
          ++ toString ((lines.length - 1) * B / L) ++ "]\n\n"), ?_⟩
    simp [String.append_assoc]

/-- In the full-inclusion path, each sheet's piece starts with the sheet
label followed by the header row. -/
theorem sheetFullPiece_header (name : String) (lines : List String) (h : lines ≠ []) :
    ∃ rest, sheetFullPiece (name, lines)
      = ("Sheet: " ++ name ++ "\n" ++ lines.getD 0 "" ++ "\n") ++ rest := by
  obtain ⟨l0, rest, rfl⟩ : ∃ l0 rest, lines = l0 :: rest := by
    cases lines with
    | nil => exact absurd rfl h
    | cons a t => exact ⟨a, t, rfl⟩
  cases rest with
  | nil =>
    refine ⟨"\n", ?_⟩
    show "Sheet: " ++ name ++ "\n" ++ joinNL [l0] ++ "\n\n" = _
    rw [show joinNL [l0] = l0 from rfl]
    rw [show ("\n\n" : String) = "\n" ++ "\n" from rfl]
    simp [String.append_assoc]
  | cons l1 rest' =>
    refine ⟨joinNL (l1 :: rest') ++ "\n\n", ?_⟩
    show "Sheet: " ++ name ++ "\n" ++ joinNL (l0 :: l1 :: rest') ++ "\n\n" = _
    rw [show joinNL (l0 :: l1 :: rest') = l0 ++ "\n" ++ joinNL (l1 :: rest') from rfl]
    simp [String.append_assoc]

/-- Claim C6 — header preservation: (a) for every sheet of a workbook with at
least one line, the sampled Excel output (either path) contains the sheet
label followed by the header row verbatim, emitted first for that sheet;
(b) for every delimited-text file that is sampled, the output starts with
the header row; (c) an in-budget delimited-text file is returned verbatim
(so trivially contains its header).  In the sampling paths the header is
emitted before the tier body and `targetRows` is computed from
`lines.length - 1`, which excludes the header. -/
theorem c6_header_preservation :
    (∀ (wb : List (String × List String)) (name : String) (lines : List String),
      (name, lines) ∈ wb → lines ≠ [] →
      ∃ u v, extractExcelText wb
        = u ++ (("Sheet: " ++ name ++ "\n" ++ lines.getD 0 "" ++ "\n") ++ v)) ∧
    (∀ text : String, MAX_CHARS < text.length → csvLines text ≠ [] →
      ∃ rest, extractCsvText text = ((csvLines text).getD 0 "" ++ "\n") ++ rest) ∧
    (∀ text : String, text.length ≤ MAX_CHARS → extractCsvText text = text) := by
  refine ⟨?_, ?_, ?_⟩
  · intro wb name lines hmem hne
    by_cases hfull : (excelFullText wb).length ≤ MAX_CHARS
    · rw [show extractExcelText wb = excelFullText wb from by
        simp only [extractExcelText]
        rw [if_pos hfull]]
      obtain ⟨rest, hrest⟩ := sheetFullPiece_header name lines hne
      obtain ⟨u, v, huv⟩ := strJoin_mem_decomp (wb.map sheetFullPiece)
        (sheetFullPiece (name, lines)) (List.mem_map_of_mem sheetFullPiece hmem)
      refine ⟨u, rest ++ v, ?_⟩
      show excelFullText wb = _
      rw [show excelFullText wb = strJoin (wb.map sheetFullPiece) from rfl, huv, hrest]
      simp [String.append_assoc]
    · rw [show extractExcelText wb
          = strJoin (wb.map (excelSheetSample MAX_CHARS (excelFullText wb).length)) from by
        simp only [extractExcelText]
        rw [if_neg hfull]]
      obtain ⟨rest, hrest⟩ := excelSheetSample_header MAX_CHARS (excelFullText wb).length
        name lines hne
      obtain ⟨u, v, huv⟩ := strJoin_mem_decomp _
        (excelSheetSample MAX_CHARS (excelFullText wb).length (name, lines))
        (List.mem_map_of_mem _ hmem)
      refine ⟨u, rest ++ v, ?_⟩
      rw [huv, hrest]
      simp [String.append_assoc]
  · intro text hlen hne
    have h0 : 0 < (csvLines text).length := List.length_pos.mpr hne
    simp only [extractCsvText]
    rw [if_neg (by omega)]
    rw [if_pos h0]
    by_cases h1 : (csvLines text).length ≤ 1
    · rw [if_pos h1]
      exact ⟨"", by rw [String.append_empty]⟩
    · rw [if_neg h1]
      exact ⟨sampleRowsBody MAX_CHARS text.length (csvLines text)
        ++ ("\n[Total rows in CSV: " ++ toString ((csvLines text).length - 1)
            ++ ", Rows included: "
            ++ toString (((csvLines text).length - 1) * MAX_CHARS / text.length) ++ "]\n"),
        by simp [String.append_assoc]⟩
  · intro text hlen
    simp only [extractCsvText]
    rw [if_pos hlen]

/-! ## Evaluation lemmas for `csvLines` -/

theorem splitChar_ne_nil (c : Char) (l : List Char) : splitChar c l ≠ [] := by
  cases l with
  | nil => simp [splitChar]
  | cons a t =>
    show (match splitChar c t with
      | [] => [[]]
      | h :: tl => if a = c then [] :: h :: tl else (a :: h) :: tl) ≠ []
    cases splitChar c t with
    | nil => simp
    | cons h tl =>
      by_cases hac : a = c <;> simp [hac]

theorem splitChar_no_sep (c : Char) (l : List Char) (h : ∀ x ∈ l, x ≠ c) :
    splitChar c l = [l] := by
  induction l with
  | nil => rfl
  | cons a t ih =>
    show (match splitChar c t with
      | [] => [[]]
      | h :: tl => if a = c then [] :: h :: tl else (a :: h) :: tl) = [a :: t]
    rw [ih (fun x hx => h x (List.mem_cons_of_mem a hx))]
    show (if a = c then [] :: t :: [] else (a :: t) :: []) = [a :: t]
    rw [if_neg (h a (List.mem_cons_self a t))]

theorem splitChar_sep (c : Char) (l₁ l₂ : List Char) (h : ∀ x ∈ l₁, x ≠ c) :
    splitChar c (l₁ ++ c :: l₂) = l₁ :: splitChar c l₂ := by
  induction l₁ with
  | nil =>
    show (match splitChar c l₂ with
      | [] => [[]]
      | h :: tl => if c = c then [] :: h :: tl else (c :: h) :: tl) = [] :: splitChar c l₂
    cases hsp : splitChar c l₂ with
    | nil => exact absurd hsp (splitChar_ne_nil c l₂)
    | cons hh tl =>
      show (if c = c then [] :: hh :: tl else (c :: hh) :: tl) = [] :: hh :: tl
      rw [if_pos rfl]
  | cons a t ih =>
    show (match splitChar c (t ++ c :: l₂) with
      | [] => [[]]
      | h :: tl => if a = c then [] :: h :: tl else (a :: h) :: tl)
      = (a :: t) :: splitChar c l₂
    rw [ih (fun x hx => h x (List.mem_cons_of_mem a hx))]
    show (if a = c then [] :: t :: splitChar c l₂ else (a :: t) :: splitChar c l₂)
      = (a :: t) :: splitChar c l₂
    rw [if_neg (h a (List.mem_cons_self a t))]

theorem trimList_id (l : List Char) (h : ∀ x ∈ l, isJsWhitespace x = false) :
    trimList l = l := by
  unfold trimList
  have h1 : l.dropWhile isJsWhitespace = l := by
    cases l with
    | nil => rfl
    | cons a t =>
      exact List.dropWhile_cons_of_neg (by rw [h a (List.mem_cons_self a t)]; simp)
  rw [h1]
  have h2 : l.reverse.dropWhile isJsWhitespace = l.reverse := by
    cases hrev : l.reverse with
    | nil => rfl
    | cons a t =>
      apply List.dropWhile_cons_of_neg
      have ha : a ∈ l := by
        rw [← List.mem_reverse, hrev]
        exact List.mem_cons_self a t
      rw [h a ha]
      simp
  rw [h2, List.reverse_reverse]

/-- A 17000-character header line. -/
def bigA : String := String.mk (List.replicate 17000 'a')

/-- A delimited-text file over budget: a 17000-character header line and one
one-character data row. -/
def csvBigEx : String := bigA ++ "\nb"

theorem bigA_data : bigA.data = List.replicate 17000 'a' := rfl

theorem csvBigEx_len : csvBigEx.length = 17002 := by
  rw [show csvBigEx = bigA ++ "\nb" from rfl, strLength_append]
  rw [show bigA.length = 17000 from by
    show (List.replicate 17000 'a').length = 17000
    exact List.length_replicate 17000 'a']
  rfl

theorem csvBigEx_lines : csvLines csvBigEx = [bigA, "b"] := by
  unfold csvLines
  rw [show csvBigEx.data = List.replicate 17000 'a' ++ ('\n' :: ['b']) from by
    rw [show csvBigEx = bigA ++ "\nb" from rfl, String.data_append, bigA_data]]
  rw [splitChar_sep '\n' _ _ (fun x hx => by
    rw [List.eq_of_mem_replicate hx]
    decide)]
  rw [splitChar_no_sep '\n' ['b'] (fun x hx => by
    rw [List.mem_singleton.mp hx]
    decide)]
  simp only [List.map_cons, List.map_nil]
  rw [trimList_id _ (fun x hx => by rw [List.eq_of_mem_replicate hx]; decide)]
  rw [trimList_id ['b'] (fun x hx => by rw [List.mem_singleton.mp hx]; decide)]
  have hfilt : 0 < (List.replicate 17000 'a').length := by
    rw [List.length_replicate]
    norm_num
  rw [List.filter_eq_self.mpr (by
    intro a ha
    rcases List.mem_cons.mp ha with rfl | ha'
    · exact decide_eq_true hfilt
    · rw [List.mem_singleton.mp ha']
      decide)]
  rfl

/-- Witness for C6: a concrete in-budget workbook sheet, a concrete
over-budget delimited file, and a concrete in-budget delimited file. -/
theorem c6_header_preservation_witness :
    (∃ u v, extractExcelText [("S", ["h", "1"])]
      = u ++ (("Sheet: " ++ "S" ++ "\n" ++ (["h", "1"] : List String).getD 0 "" ++ "\n") ++ v)) ∧
    (MAX_CHARS < csvBigEx.length ∧
      ∃ rest, extractCsvText csvBigEx = ((csvLines csvBigEx).getD 0 "" ++ "\n") ++ rest) ∧
    extractCsvText "x" = "x" := by
  refine ⟨?_, ⟨?_, ?_⟩, ?_⟩
  · exact c6_header_preservation.1 [("S", ["h", "1"])] "S" ["h", "1"] (by simp) (by simp)
  · rw [csvBigEx_len]
    unfold MAX_CHARS TARGET_TOKENS
    norm_num
  · exact c6_header_preservation.2.1 csvBigEx
      (by rw [csvBigEx_len]; unfold MAX_CHARS TARGET_TOKENS; norm_num)
      (by rw [csvBigEx_lines]; simp)
  · exact c6_header_preservation.2.2 "x" (by decide)



/-! ## Claim C9 -/

/-- Claim C9, counterexample: the claim asserts the light tier "can emit up
to floor(0.85 * dataRowCount) > targetRows rows".  This is impossible: under
the light-tier guard `compressionRatio > 0.85` (i.e. `20B > 17L`),
`Math.max(targetRows, Math.floor(dataRows * 0.85))` always equals
`targetRows`, so the light tier emits exactly `targetRows` rows — there is
no configuration in which it emits more. -/
theorem c9_counterexample :
    ¬ ∃ (dataRows B L : Nat), 0 < L ∧ 17 * L < 20 * B ∧
      lightRowsToKeep dataRows (dataRows * B / L) ≠ dataRows * B / L := by
  rintro ⟨R, B, L, hL, hlight, hne⟩
  apply hne
  unfold lightRowsToKeep
  apply Nat.max_eq_left
  rw [Nat.le_div_iff_mul_le hL]
  have key : R * 85 / 100 * L * 100 ≤ R * B * 100 := by
    calc R * 85 / 100 * L * 100 = R * 85 / 100 * 100 * L := by ring
      _ ≤ R * 85 * L := Nat.mul_le_mul_right L (Nat.div_mul_le_self (R * 85) 100)
      _ = R * (85 * L) := by ring
      _ ≤ R * (B * 100) := Nat.mul_le_mul_left R (by omega)
      _ = R * B * 100 := by ring
  exact Nat.le_of_mul_le_mul_right key (by norm_num)

/-- Claim C9, amended — the per-sheet / per-file summary line always reports
`Rows included` as `targetRows = floor(dataRowCount * compressionRatio)`,
a value fixed before sampling, in every tier (the moderate tier with its
middle region suppressed actually emits fewer rows; the light tier emits
exactly `targetRows`, never more — see the counterexample). -/
theorem c9_summary_reports_target :
    (∀ (B L : Nat) (name : String) (lines : List String), 2 ≤ lines.length →
      ∃ body, excelSheetSample B L (name, lines)
        = body ++ ("\n[Total rows in sheet: " ++ toString (lines.length - 1)
            ++ ", Rows included: " ++ toString ((lines.length - 1) * B / L) ++ "]\n\n")) ∧
    (∀ text : String, MAX_CHARS < text.length → 2 ≤ (csvLines text).length →
      ∃ body, extractCsvText text
        = body ++ ("\n[Total rows in CSV: " ++ toString ((csvLines text).length - 1)
            ++ ", Rows included: "
            ++ toString (((csvLines text).length - 1) * MAX_CHARS / text.length)
            ++ "]\n")) := by
  constructor
  · intro B L name lines h2
    simp only [excelSheetSample]
    rw [if_neg (by omega)]
    exact ⟨_, rfl⟩
  · intro text hlen h2
    simp only [extractCsvText]
    rw [if_neg (by omega), if_neg (by omega)]
    exact ⟨_, rfl⟩

/-- Witness for C9 (amended): a concrete moderate-tier sheet (ratio 0.8) and
the concrete over-budget delimited file `csvBigEx`. -/
theorem c9_summary_reports_target_witness :
    (∃ body, excelSheetSample 16000 20000 ("S", ["h", "a", "b", "c"])
      = body ++ ("\n[Total rows in sheet: " ++ toString ((["h", "a", "b", "c"] :
          List String).length - 1)
          ++ ", Rows included: " ++ toString (((["h", "a", "b", "c"] : List String).length - 1)
            * 16000 / 20000) ++ "]\n\n")) ∧
    (∃ body, extractCsvText csvBigEx
      = body ++ ("\n[Total rows in CSV: " ++ toString ((csvLines csvBigEx).length - 1)
          ++ ", Rows included: "
          ++ toString (((csvLines csvBigEx).length - 1) * MAX_CHARS / csvBigEx.length)
          ++ "]\n")) :=
  ⟨c9_summary_reports_target.1 16000 20000 "S" ["h", "a", "b", "c"] (by norm_num),
    c9_summary_reports_target.2 csvBigEx
      (by rw [csvBigEx_len]; unfold MAX_CHARS TARGET_TOKENS; norm_num)
      (by rw [csvBigEx_lines]; norm_num)⟩


end FileUploadHelper
